import Mathlib

/-!
Verification of the tool-invocation and session-lifecycle contract of the
voice-agent repository (agent_gemini.py, agent_v2.py, voice_executor_v1.py).

The Python sources are shallowly embedded: JSON dictionaries become an
inductive `Json` value, Python exceptions become `Except String`, the remote
Mistral dependency and the random draws become explicit environment records,
and each tool function becomes a total Lean function whose body mirrors the
source line by line (try/except becomes a match on the body result).
-/

/-- A JSON-like Python value: the dictionaries, lists, strings, numbers and
booleans the tool functions build and return.  Python floats are idealised
as rationals. -/
inductive Json where
  | null : Json
  | bool (b : Bool) : Json
  | num (q : ℚ) : Json
  | str (s : String) : Json
  | arr (elems : List Json) : Json
  | obj (fields : List (String × Json)) : Json

namespace Json

/-- Lookup of a top-level key in a JSON object (Python `d[k]` on success,
`none` when the key is absent or the value is not an object). -/
def getKey? : Json → String → Option Json
  | obj fields, k => fields.lookup k
  | _, _ => none

/-- Follow a path of keys through nested objects. -/
def getPath? : Json → List String → Option Json
  | j, [] => some j
  | j, k :: ks => match j.getKey? k with
    | some j2 => j2.getPath? ks
    | none => none

/-- Whether a JSON object has a given top-level key. -/
def hasKey (j : Json) (k : String) : Bool :=
  (j.getKey? k).isSome

end Json

/-- Python list indexing `l[i]` with an `int` index: negative indices wrap
from the end, out-of-range indices raise `IndexError`. -/
def pyListGet {α : Type} (l : List α) (i : ℤ) : Except String α :=
  let j : ℤ := if i < 0 then i + l.length else i
  if h : 0 ≤ j ∧ j.toNat < l.length then .ok (l.get ⟨j.toNat, h.2⟩)
  else .error "IndexError: list index out of range"

/-- Python dictionary access `d[k]` on a JSON value: raises `KeyError` when
the key is missing and `TypeError` when the value is not a dictionary. -/
def pyGetKey (j : Json) (k : String) : Except String Json :=
  match j with
  | .obj fields =>
    match fields.lookup k with
    | some v => .ok v
    | none => .error ("KeyError: " ++ k)
  | _ => .error "TypeError: value is not subscriptable by string"

/-- Python indexing `v[i]` on a JSON value: requires a list. -/
def pyIndex (j : Json) (i : ℤ) : Except String Json :=
  match j with
  | .arr elems => pyListGet elems i
  | _ => .error "TypeError: value is not a list"

/-- Python `len(result)`: defined for strings, lists and dictionaries,
`TypeError` for every other value. -/
def pyLen (j : Json) : Except String ℕ :=
  match j with
  | .str s => .ok s.length
  | .arr elems => .ok elems.length
  | .obj fields => .ok fields.length
  | _ => .error "TypeError: object has no len"

/-- The `result_preview` expression of the success log record,
`result[:100] + "..." if len(result) > 100 else result`: `len` first, and
only when the length exceeds 100 the slice-and-concatenate, which succeeds
for a string, raises `TypeError` for a long list (list plus string) and for
a long dictionary (slice of a dictionary).  A short non-string value passes
through untouched. -/
def pyResultPreview (j : Json) : Except String Json :=
  match pyLen j with
  | .error msg => .error msg
  | .ok n =>
    if n > 100 then
      match j with
      | .str s => .ok (Json.str (s.take 100 ++ "..."))
      | .arr _ => .error "TypeError: can only concatenate list to list"
      | _ => .error "TypeError: unhashable type: slice"
    else .ok j

/-- Python truthiness of `os.getenv(...)`: `if not api_key` is taken both
when the variable is unset (`None`) and when it is the empty string. -/
def keyTruthy : Option String → Bool
  | none => false
  | some s => s ≠ ""

/-- Python `str.title()` on ASCII text: an alphabetic character is
uppercased when the previous character is not alphabetic and lowercased
otherwise; other characters pass through and reset the word boundary. -/
def titleChars : Bool → List Char → List Char
  | _, [] => []
  | prevAlpha, c :: cs =>
    if c.isAlpha then
      (if prevAlpha then c.toLower else c.toUpper) :: titleChars true cs
    else
      c :: titleChars false cs

/-- Python `city.title()`. -/
def pyTitle (s : String) : String :=
  String.mk (titleChars false s.data)

/-- Python `round(x, d)` idealised on rationals: round to `d` decimal
places (tie behaviour is immaterial to every property proved here). -/
def pyRound (d : ℕ) (q : ℚ) : ℚ :=
  (round (q * (10 : ℚ) ^ d) : ℤ) / (10 : ℚ) ^ d

/-!
## The Mistral web-search tools

`web_search` (agent_gemini.py) and `web_search_mistral` (agent_v2.py) have
identical bodies apart from logging text.  The remote Mistral service is an
environment record: the API key seen by `os.getenv`, and the outcome of each
remote call (`.error` standing for a raised exception).  The function also
returns the list of remote interactions it performed, in order, so that
"no network call is attempted" is a statement about the code.
-/

/-- One interaction with the remote Mistral service, or a locally logged
cleanup warning. -/
inductive RemoteEv where
  | clientInit : RemoteEv
  | agentCreate : RemoteEv
  | convStart : RemoteEv
  | agentDelete : RemoteEv
  | cleanupWarning : RemoteEv
deriving DecidableEq, Repr

/-- Environment of one web-search invocation: the `MISTRAL_API_KEY`
variable and the behaviour of the remote dependency at each call site. -/
structure MistralEnv where
  apiKey : Option String
  create : Except String String
  convStart : Except String Json
  delete : Except String Unit

/-- The extraction step reading the field path outputs, index 1, content,
index 0, text out of the dumped conversation response.  The value under the
text key is kept as it is: the source performs no type check on it. -/
def extractSearchText (resp : Json) : Except String Json := do
  let outputs ← pyGetKey resp "outputs"
  let second ← pyIndex outputs 1
  let content ← pyGetKey second "content"
  let first ← pyIndex content 0
  pyGetKey first "text"

/-- Body of the `try:` block of `web_search` / `web_search_mistral`:
key check and early return, client construction, agent creation,
conversation start, result extraction, the `result_length` and
`result_preview` computation of the success log record, cleanup with its
own inner try/except, and the final `{"result": result}` return carrying
the raw extracted value.  The second component records the remote
interactions in order. -/
def mistralSearchBody (env : MistralEnv) (_query : String) :
    Except String Json × List RemoteEv :=
  if keyTruthy env.apiKey = false then
    (.ok (Json.obj [("error", Json.str "Mistral API key not configured")]), [])
  else
    match env.create with
    | .error msg => (.error msg, [.clientInit, .agentCreate])
    | .ok _agentId =>
      match env.convStart with
      | .error msg => (.error msg, [.clientInit, .agentCreate, .convStart])
      | .ok resp =>
        match extractSearchText resp with
        | .error msg => (.error msg, [.clientInit, .agentCreate, .convStart])
        | .ok result =>
          match pyResultPreview result with
          | .error msg => (.error msg, [.clientInit, .agentCreate, .convStart])
          | .ok _preview =>
            match env.delete with
            | .ok _ =>
              (.ok (Json.obj [("result", result)]),
               [.clientInit, .agentCreate, .convStart, .agentDelete])
            | .error _ =>
              (.ok (Json.obj [("result", result)]),
               [.clientInit, .agentCreate, .convStart, .agentDelete,
                .cleanupWarning])

/-- The whole tool function: the outer `except Exception as e` converts any
exception from the body into `{"error": f"Web search failed: {str(e)}"}`. -/
def mistralSearch (env : MistralEnv) (query : String) :
    Json × List RemoteEv :=
  match mistralSearchBody env query with
  | (.ok j, t) => (j, t)
  | (.error msg, t) =>
    (Json.obj [("error", Json.str ("Web search failed: " ++ msg))], t)

/-- The `web_search` tool function of agent_gemini.py. -/
def web_search (env : MistralEnv) (query : String) : Json × List RemoteEv :=
  mistralSearch env query

/-- The `web_search_mistral` tool function of agent_v2.py (its body is
identical to `web_search` apart from log text). -/
def web_search_mistral (env : MistralEnv) (query : String) :
    Json × List RemoteEv :=
  mistralSearch env query

/-!
## The mock weather tool `check_weather` (agent_v2.py)

All `random` draws and the ambient clock become fields of a `WeatherEnv`
record; each theorem that needs them assumes the contract of the draw that
produced a field (`random.randint(20, 100)` yields a value in `[20, 100]`,
and so on), collected in `DrawsValid`.
-/

/-- One entry of the `weather_conditions` pool. -/
structure WeatherCond where
  main : String
  description : String
  icon : String

/-- The `weather_conditions` list of agent_v2.py, verbatim. -/
def weatherConditions : List WeatherCond :=
  [⟨"Clear", "clear sky", "01d"⟩,
   ⟨"Clouds", "few clouds", "02d"⟩,
   ⟨"Clouds", "scattered clouds", "03d"⟩,
   ⟨"Clouds", "broken clouds", "04d"⟩,
   ⟨"Clouds", "overcast clouds", "04d"⟩,
   ⟨"Rain", "light rain", "10d"⟩,
   ⟨"Rain", "moderate rain", "10d"⟩,
   ⟨"Rain", "heavy rain", "10d"⟩,
   ⟨"Thunderstorm", "thunderstorm", "11d"⟩,
   ⟨"Snow", "light snow", "13d"⟩,
   ⟨"Mist", "mist", "50d"⟩,
   ⟨"Fog", "fog", "50d"⟩]

/-- The air-quality description list indexed by `air_quality - 1`. -/
def aqDescriptions : List String :=
  ["Good", "Fair", "Moderate", "Poor", "Very Poor"]

/-- The country pool of `random.choice`. -/
def countries : List String :=
  ["US", "UK", "CA", "AU", "DE", "FR", "JP", "IN", "BR", "CN"]

/-- All random draws and clock readings of one `check_weather` invocation.
`random.choices` / `random.choice` always return an element of their pool,
hence the `Fin` indices; the numeric draws are raw and constrained only in
`DrawsValid`. -/
structure WeatherEnv where
  month : ℤ
  winterDraw : ℚ
  springDraw : ℚ
  summerDraw : ℚ
  fallDraw : ℚ
  condIdx : Fin 12
  rainAdj : ℚ
  snowTemp : ℚ
  thunderAdj : ℚ
  feelsLikeAdj : ℚ
  humidity : ℤ
  pressure : ℤ
  windSpeedDraw : ℚ
  windDirection : ℤ
  windGustDraw : ℚ
  visibilityDraw : ℚ
  uvIndex : ℤ
  airQuality : ℤ
  latDraw : ℚ
  lonDraw : ℚ
  countryIdx : Fin 10
  sunriseHour : ℤ
  sunriseMinute : ℤ
  sunsetHour : ℤ
  sunsetMinute : ℤ
  nowIso : String
  elapsedMs : ℚ

/-- The contracts of the `random` draws: each field lies in the range of
the `random.uniform` / `random.randint` call that produced it. -/
structure DrawsValid (e : WeatherEnv) : Prop where
  month_ge : 1 ≤ e.month
  month_le : e.month ≤ 12
  rainAdj_ge : 2 ≤ e.rainAdj
  rainAdj_le : e.rainAdj ≤ 8
  snowTemp_ge : -15 ≤ e.snowTemp
  snowTemp_le : e.snowTemp ≤ 5
  thunderAdj_ge : 3 ≤ e.thunderAdj
  thunderAdj_le : e.thunderAdj ≤ 10
  feelsLikeAdj_ge : -5 ≤ e.feelsLikeAdj
  feelsLikeAdj_le : e.feelsLikeAdj ≤ 5
  humidity_ge : 20 ≤ e.humidity
  humidity_le : e.humidity ≤ 100
  pressure_ge : 980 ≤ e.pressure
  pressure_le : e.pressure ≤ 1040
  windSpeed_ge : 0 ≤ e.windSpeedDraw
  windSpeed_le : e.windSpeedDraw ≤ 25
  windDirection_ge : 0 ≤ e.windDirection
  windDirection_le : e.windDirection ≤ 360
  windGust_ge : 0 ≤ e.windGustDraw
  windGust_le : e.windGustDraw ≤ 10
  visibility_ge : 1 ≤ e.visibilityDraw
  visibility_le : e.visibilityDraw ≤ 20
  uvIndex_ge : 0 ≤ e.uvIndex
  uvIndex_le : e.uvIndex ≤ 11
  airQuality_ge : 1 ≤ e.airQuality
  airQuality_le : e.airQuality ≤ 5
  lat_ge : -90 ≤ e.latDraw
  lat_le : e.latDraw ≤ 90
  lon_ge : -180 ≤ e.lonDraw
  lon_le : e.lonDraw ≤ 180
  sunriseHour_ge : 5 ≤ e.sunriseHour
  sunriseHour_le : e.sunriseHour ≤ 8
  sunriseMinute_ge : 0 ≤ e.sunriseMinute
  sunriseMinute_le : e.sunriseMinute ≤ 59
  sunsetHour_ge : 17 ≤ e.sunsetHour
  sunsetHour_le : e.sunsetHour ≤ 20
  sunsetMinute_ge : 0 ≤ e.sunsetMinute
  sunsetMinute_le : e.sunsetMinute ≤ 59
  elapsedMs_ge : 0 ≤ e.elapsedMs

/-- Seasonal `temp_base` selection by `current_month`. -/
def tempBaseSeason (e : WeatherEnv) : ℚ :=
  if e.month = 12 ∨ e.month = 1 ∨ e.month = 2 then e.winterDraw
  else if e.month = 3 ∨ e.month = 4 ∨ e.month = 5 then e.springDraw
  else if e.month = 6 ∨ e.month = 7 ∨ e.month = 8 then e.summerDraw
  else e.fallDraw

/-- The adjustment of `temp_base` driven by the selected weather condition. -/
def adjustedTempBase (e : WeatherEnv) : ℚ :=
  let base := tempBaseSeason e
  let w := weatherConditions.get e.condIdx
  if w.main = "Rain" then base - e.rainAdj
  else if w.main = "Snow" then e.snowTemp
  else if w.main = "Thunderstorm" then base - e.thunderAdj
  else base

/-- The value `temperature = round(temp_base, 1)`. -/
def temperatureVal (e : WeatherEnv) : ℚ :=
  pyRound 1 (adjustedTempBase e)

/-- The value `feels_like = round(temperature + random.uniform(-5, 5), 1)`. -/
def feelsLikeVal (e : WeatherEnv) : ℚ :=
  pyRound 1 (temperatureVal e + e.feelsLikeAdj)

/-- The value `wind_speed = round(random.uniform(0, 25), 1)`. -/
def windSpeedVal (e : WeatherEnv) : ℚ :=
  pyRound 1 e.windSpeedDraw

/-- The value
`wind_gust = round(wind_speed + random.uniform(0, 10), 1) if wind_speed > 5
else wind_speed`. -/
def windGustVal (e : WeatherEnv) : ℚ :=
  if windSpeedVal e > 5 then pyRound 1 (windSpeedVal e + e.windGustDraw)
  else windSpeedVal e

/-- Two-digit zero-padded rendering used by `strftime` for hour/minute. -/
def pad2 (n : ℤ) : String :=
  if n < 10 then "0" ++ toString n.toNat else toString n.toNat

/-- The string `strftime` produces for the pattern hour-colon-minute. -/
def fmtHM (h m : ℤ) : String :=
  pad2 h ++ ":" ++ pad2 m

/-- The `current_time.replace(hour=..., minute=...)` call followed by
`strftime`: `replace` raises `ValueError` on an out-of-range field. -/
def pyReplaceStrftime (h m : ℤ) : Except String String :=
  if 0 ≤ h ∧ h ≤ 23 ∧ 0 ≤ m ∧ m ≤ 59 then .ok (fmtHM h m)
  else .error "ValueError: hour or minute out of range"

/-- Decimal rendering of a one-decimal float, as Python prints
`temperature` inside the forecast summary f-string. -/
def fmtQ1 (q : ℚ) : String :=
  let k : ℤ := round (q * 10)
  (if k < 0 then "-" else "") ++ toString (k.natAbs / 10) ++ "."
    ++ toString (k.natAbs % 10)

/-- The `weather_data` dictionary of agent_v2.py, with the three values
computed by fallible operations (the two `strftime` strings and the
air-quality description) passed in. -/
def weatherPayload (e : WeatherEnv) (city : String)
    (aqDesc sunrise sunset : String) : Json :=
  let w := weatherConditions.get e.condIdx
  Json.obj
    [("location", Json.obj
        [("city", Json.str (pyTitle city)),
         ("country", Json.str (countries.get e.countryIdx)),
         ("coordinates", Json.obj
            [("latitude", Json.num (pyRound 4 e.latDraw)),
             ("longitude", Json.num (pyRound 4 e.lonDraw))])]),
     ("current", Json.obj
        [("timestamp", Json.str e.nowIso),
         ("temperature", Json.obj
            [("current", Json.num (temperatureVal e)),
             ("feels_like", Json.num (feelsLikeVal e)),
             ("unit", Json.str "°C")]),
         ("weather", Json.obj
            [("main", Json.str w.main),
             ("description", Json.str w.description),
             ("icon", Json.str w.icon)]),
         ("atmospheric", Json.obj
            [("humidity", Json.num (e.humidity : ℚ)),
             ("pressure", Json.num (e.pressure : ℚ)),
             ("pressure_unit", Json.str "hPa"),
             ("visibility", Json.num (pyRound 1 e.visibilityDraw)),
             ("visibility_unit", Json.str "km")]),
         ("wind", Json.obj
            [("speed", Json.num (windSpeedVal e)),
             ("direction", Json.num (e.windDirection : ℚ)),
             ("gust", Json.num (windGustVal e)),
             ("unit", Json.str "km/h")]),
         ("sun", Json.obj
            [("sunrise", Json.str sunrise),
             ("sunset", Json.str sunset)]),
         ("indices", Json.obj
            [("uv_index", Json.num (e.uvIndex : ℚ)),
             ("air_quality_index", Json.num (e.airQuality : ℚ)),
             ("air_quality_description", Json.str aqDesc)])]),
     ("forecast", Json.obj
        [("summary", Json.str ("Expect " ++ w.description
            ++ " with temperatures around " ++ fmtQ1 (temperatureVal e)
            ++ "°C")),
         ("next_24h", Json.str
            "Conditions will remain similar with slight temperature variations")]),
     ("metadata", Json.obj
        [("source", Json.str "Mock Weather Service"),
         ("last_updated", Json.str e.nowIso),
         ("response_time_ms", Json.num (pyRound 2 e.elapsedMs))])]

/-- Body of the `try:` block of `check_weather`: the fallible operations in
evaluation order (the two `replace`/`strftime` pairs at lines 231-232 and
270-271, then the air-quality list indexing inside the dictionary literal
at line 276), ending in the `weather_data` value. -/
def checkWeatherBody (e : WeatherEnv) (city : String) : Except String Json :=
  match pyReplaceStrftime e.sunriseHour e.sunriseMinute with
  | .error msg => .error msg
  | .ok sunrise =>
    match pyReplaceStrftime e.sunsetHour e.sunsetMinute with
    | .error msg => .error msg
    | .ok sunset =>
      match pyListGet aqDescriptions (e.airQuality - 1) with
      | .error msg => .error msg
      | .ok aqDesc => .ok (weatherPayload e city aqDesc sunrise sunset)

/-- The `check_weather` tool function: the outer `except Exception as e`
converts any exception into
`{"error": f"Weather check failed: {str(e)}"}`. -/
def check_weather (e : WeatherEnv) (city : String) : Json :=
  match checkWeatherBody e city with
  | .ok j => j
  | .error msg =>
    Json.obj [("error", Json.str ("Weather check failed: " ++ msg))]

/-- A concrete, fully specified weather environment used by concrete
evaluations (a July run over the city of Paris). -/
def envW : WeatherEnv :=
  ⟨7, 0, 15, 25, 10, ⟨0, by decide⟩, 3, -5, 4, 2, 55, 1013, 12, 180, 4, 10,
   5, 3, 48, 2, ⟨5, by decide⟩, 6, 30, 19, 45, "2026-10-12T12:00:00", 150⟩

/-!
## Entry points

Each entrypoint awaits session start, room connect and (in two of the
three modules) the greeting instruction.  The outcome of each awaited step
is an environment field; a raised exception is `.error`.  `PyExc`
distinguishes the two vendor error kinds agent_v2 names in its first
`except` clause from every other exception.
-/

/-- An exception that may arise inside an entrypoint. -/
inductive PyExc where
  | apiConnectionError : PyExc
  | jsonDecodeError : PyExc
  | otherExc (msg : String) : PyExc
deriving DecidableEq, Repr

/-- Outcomes of the awaited steps of one entrypoint run. -/
structure EntryEnv where
  start : Except PyExc Unit
  connect : Except PyExc Unit
  generateReply : Except PyExc Unit

namespace AgentV2

/-- The `entrypoint` of agent_v2.py: `session.start`, `ctx.connect` and
`session.generate_reply` inside one `try:`; the first handler catches
`APIConnectionError` and `JSONDecodeError`, the second catches every other
`Exception`; both only log, so the function always returns normally. -/
def entrypoint (e : EntryEnv) : Except PyExc Unit :=
  match (do e.start; e.connect; e.generateReply : Except PyExc Unit) with
  | .ok _ => .ok ()
  | .error PyExc.apiConnectionError => .ok ()
  | .error PyExc.jsonDecodeError => .ok ()
  | .error (PyExc.otherExc _) => .ok ()

end AgentV2

namespace AgentGemini

/-- The `entrypoint` of agent_gemini.py: `session.start`, `ctx.connect`
and `session.generate_reply` awaited with no exception handling at all. -/
def entrypoint (e : EntryEnv) : Except PyExc Unit := do
  e.start
  e.connect
  e.generateReply

end AgentGemini

namespace VoiceExecutorV1

/-- The `entrypoint` of voice_executor_v1.py: `ctx.connect` then
`session.start`, with no exception handling and no greeting call of its
own (the greeting is the `on_enter` hook of `MyAgent`). -/
def entrypoint (e : EntryEnv) : Except PyExc Unit := do
  e.connect
  e.start

end VoiceExecutorV1

/-!
## Personas and the greeting contract

A persona is its instruction string plus whether its `on_enter` hook
issues the greeting (`MyAgent.on_enter` calls `generate_reply`; the two
`Assistant` classes do not override `on_enter`).  On the success path of a
session, `session.start` fires the persona `on_enter` hook; afterwards the
entrypoint may issue its own `generate_reply`.
-/

/-- The source of a greeting instruction. -/
inductive GreetSource where
  | persona : GreetSource
  | entryPoint : GreetSource
deriving DecidableEq, Repr

/-- An assistant persona: instruction text and whether its `on_enter`
hook issues the greeting. -/
structure Persona where
  instructions : String
  onEnterGreets : Bool

/-- The `MyAgent` persona of voice_executor_v1.py: `on_enter` calls
`self.session.generate_reply()`. -/
def VoiceExecutorV1.MyAgent : Persona :=
  ⟨"You can retrieve data via the MCP server. The interface is voice-based: accept spoken user queries and respond with synthesized speech.",
   true⟩

/-- The `Assistant` persona of agent_v2.py: no `on_enter` override. -/
def AgentV2.Assistant : Persona :=
  ⟨"You are a helpful voice AI assistant with web search and weather checking capabilities. You can search for current information on any topic and check weather for any city.",
   false⟩

/-- The `Assistant` persona of agent_gemini.py: no `on_enter` override. -/
def AgentGemini.Assistant : Persona :=
  ⟨"You are a helpful voice AI assistant with web search capabilities. You can search for current information on any topic.",
   false⟩

/-- The greetings `session.start(agent=p, ...)` itself issues on the
success path: the `on_enter` hook of the persona, when it greets. -/
def sessionStartGreetings (p : Persona) : List GreetSource :=
  if p.onEnterGreets then [GreetSource.persona] else []

/-- Greetings issued on the success path of the agent_v2 entrypoint:
`session.start(agent=Assistant(), ...)` then the explicit
`session.generate_reply(instructions=...)` call after `ctx.connect`. -/
def AgentV2.greetingTrace : List GreetSource :=
  sessionStartGreetings AgentV2.Assistant ++ [GreetSource.entryPoint]

/-- Greetings issued on the success path of the agent_gemini entrypoint:
`session.start(agent=Assistant(), ...)` then the explicit
`session.generate_reply(instructions=...)` call after `ctx.connect`. -/
def AgentGemini.greetingTrace : List GreetSource :=
  sessionStartGreetings AgentGemini.Assistant ++ [GreetSource.entryPoint]

/-- Greetings issued on the success path of the voice_executor_v1
entrypoint: only `session.start(agent=MyAgent(), ...)`; the entrypoint
itself never calls `generate_reply`. -/
def VoiceExecutorV1.greetingTrace : List GreetSource :=
  sessionStartGreetings VoiceExecutorV1.MyAgent

/-!
## Tool-call dispatch within one model turn
-/

/-- One ToolCall emitted by the model: tool name and argument mapping. -/
structure ToolCall where
  name : String
  arguments : List (String × Json)

/-- A ToolResult is the JSON value a Tool Function returns. -/
abbrev ToolResult := Json

/-- Modelled from the spec: the loop that executes the ToolCalls of one
model turn lives in the external agent runtime (the hosted conversation
SDK), not in this repository; the spec fixes sequential dispatch as the
portable default, appending each ToolResult in the order the calls were
issued. -/
def dispatchToolCalls (execTool : ToolCall → ToolResult)
    (calls : List ToolCall) : List ToolResult :=
  calls.map execTool

/-- The result component of a web search, written without any reference to
the cleanup outcome: used to show the returned value is independent of the
`delete` call. -/
def mistralSearchResult (key : Option String) (cr : Except String String)
    (cs : Except String Json) (_query : String) : Json :=
  if keyTruthy key = false then
    Json.obj [("error", Json.str "Mistral API key not configured")]
  else
    match cr with
    | .error msg => Json.obj [("error", Json.str ("Web search failed: " ++ msg))]
    | .ok _ =>
      match cs with
      | .error msg =>
        Json.obj [("error", Json.str ("Web search failed: " ++ msg))]
      | .ok resp =>
        match extractSearchText resp with
        | .error msg =>
          Json.obj [("error", Json.str ("Web search failed: " ++ msg))]
        | .ok result =>
          match pyResultPreview result with
          | .error msg =>
            Json.obj [("error", Json.str ("Web search failed: " ++ msg))]
          | .ok _preview => Json.obj [("result", result)]

/-- A search environment with a configured key whose agent-creation call
raises. -/
def envBoom : MistralEnv := ⟨some "key", .error "boom", .ok Json.null, .ok ()⟩

/-- A search environment with the `MISTRAL_API_KEY` variable unset. -/
def envNoKey : MistralEnv := ⟨none, .ok "agent", .ok Json.null, .ok ()⟩

/-- A search environment with the `MISTRAL_API_KEY` variable set to the
empty string. -/
def envEmptyKey : MistralEnv := ⟨some "", .ok "agent", .ok Json.null, .ok ()⟩

/-- A weather environment whose air-quality draw is out of the `randint`
range, driving the list indexing out of bounds. -/
def envBadAq : WeatherEnv :=
  ⟨7, 0, 15, 25, 10, ⟨0, by decide⟩, 3, -5, 4, 2, 55, 1013, 12, 180, 4, 10,
   5, 99, 48, 2, ⟨5, by decide⟩, 6, 30, 19, 45, "2026-10-12T12:00:00", 150⟩

/-- A conversation response whose extraction path yields the text
"answer". -/
def respOk : Json :=
  Json.obj [("outputs", Json.arr
    [Json.null,
     Json.obj [("content", Json.arr
       [Json.obj [("text", Json.str "answer")]])]])]

/-- A search environment in which every remote stage succeeds. -/
def envOkAll : MistralEnv := ⟨some "key", .ok "agent", .ok respOk, .ok ()⟩

/-- A concrete tool executor for the dispatch model. -/
def wExec : ToolCall → ToolResult := fun c => Json.str c.name

/-- A concrete two-call turn for the dispatch model. -/
def wCalls : List ToolCall :=
  [⟨"web_search", [("query", Json.str "ai news")]⟩,
   ⟨"check_weather", [("city", Json.str "paris")]⟩]

/-!
## Helper lemmas
-/

theorem round_q_mono {x y : ℚ} (hxy : x ≤ y) : round x ≤ round y := by
  rw [round_eq, round_eq]
  exact Int.floor_le_floor (by linarith)

theorem pyRound_mono (d : ℕ) {x y : ℚ} (hxy : x ≤ y) :
    pyRound d x ≤ pyRound d y := by
  unfold pyRound
  have h10 : (0 : ℚ) < 10 ^ d := by positivity
  gcongr
  exact_mod_cast round_q_mono (by nlinarith)

theorem pyRound_intMul (d : ℕ) (k : ℤ) :
    pyRound d ((k : ℚ) / 10 ^ d) = (k : ℚ) / 10 ^ d := by
  unfold pyRound
  have h10 : (10 : ℚ) ^ d ≠ 0 := by positivity
  rw [div_mul_cancel₀ _ h10, round_intCast]

theorem pyRound_idem (d : ℕ) (x : ℚ) :
    pyRound d (pyRound d x) = pyRound d x := by
  have h : pyRound d x = ((round (x * 10 ^ d) : ℤ) : ℚ) / 10 ^ d := rfl
  rw [h, pyRound_intMul]

theorem pyListGet_nonneg {α : Type} (l : List α) (i : ℤ) (h0 : 0 ≤ i)
    (hl : i.toNat < l.length) : pyListGet l i = .ok (l.get ⟨i.toNat, hl⟩) := by
  have hni : ¬ i < 0 := not_lt.2 h0
  simp only [pyListGet, if_neg hni]
  rw [dif_pos ⟨h0, hl⟩]

theorem pyReplaceStrftime_ok (h m : ℤ) (hh0 : 0 ≤ h) (hh : h ≤ 23)
    (hm0 : 0 ≤ m) (hm : m ≤ 59) :
    pyReplaceStrftime h m = .ok (fmtHM h m) := by
  unfold pyReplaceStrftime
  rw [if_pos ⟨hh0, hh, hm0, hm⟩]

/-- The concrete environment `envW` satisfies every draw contract. -/
theorem envW_drawsValid : DrawsValid envW := by
  constructor <;> norm_num [envW]

/-- Under the draw contracts, `check_weather` takes no exception path: it
returns the `weather_data` payload, with the air-quality description read
at position `air_quality - 1` of the description list. -/
theorem check_weather_ok (e : WeatherEnv) (city : String)
    (h : DrawsValid e) :
    ∃ k : Fin 5, ((k : ℕ) : ℤ) = e.airQuality - 1 ∧
      check_weather e city
        = weatherPayload e city (aqDescriptions.get k)
            (fmtHM e.sunriseHour e.sunriseMinute)
            (fmtHM e.sunsetHour e.sunsetMinute) := by
  have haq1 := h.airQuality_ge
  have haq2 := h.airQuality_le
  have hk5 : (e.airQuality - 1).toNat < aqDescriptions.length := by
    simp only [aqDescriptions, List.length_cons, List.length_nil]
    omega
  refine ⟨⟨(e.airQuality - 1).toNat, hk5⟩, ?_, ?_⟩
  · show (((e.airQuality - 1).toNat : ℕ) : ℤ) = e.airQuality - 1
    omega
  · have h1 := pyReplaceStrftime_ok e.sunriseHour e.sunriseMinute
      (by linarith [h.sunriseHour_ge]) (by linarith [h.sunriseHour_le])
      h.sunriseMinute_ge h.sunriseMinute_le
    have h2 := pyReplaceStrftime_ok e.sunsetHour e.sunsetMinute
      (by linarith [h.sunsetHour_ge]) (by linarith [h.sunsetHour_le])
      h.sunsetMinute_ge h.sunsetMinute_le
    have h3 := pyListGet_nonneg aqDescriptions (e.airQuality - 1)
      (by omega) hk5
    simp only [check_weather, checkWeatherBody, h1, h2, h3]


/-- The result component of a web search depends only on the key and the
create/start/extract outcomes, never on the cleanup outcome. -/
theorem mistralSearch_fst (env : MistralEnv) (q : String) :
    (mistralSearch env q).1
      = mistralSearchResult env.apiKey env.create env.convStart q := by
  obtain ⟨key, cr, cs, d⟩ := env
  unfold mistralSearch mistralSearchBody mistralSearchResult
  dsimp only
  by_cases hk : keyTruthy key = false
  · rw [if_pos hk, if_pos hk]
  · rw [if_neg hk, if_neg hk]
    cases cr with
    | error msg => rfl
    | ok aid =>
      cases cs with
      | error msg => rfl
      | ok resp =>
        dsimp only
        cases hx : extractSearchText resp with
        | error msg => rfl
        | ok result =>
          dsimp only
          cases hp : pyResultPreview result with
          | error msg => rfl
          | ok p =>
            cases d with
            | error m => rfl
            | ok u => rfl

/-- Every web-search return value is a result object carrying some JSON
value or an error object carrying a string. -/
theorem mistralSearch_shape (env : MistralEnv) (q : String) :
    (∃ v, (mistralSearch env q).1 = Json.obj [("result", v)]) ∨
    (∃ s, (mistralSearch env q).1 = Json.obj [("error", Json.str s)]) := by
  obtain ⟨key, cr, cs, d⟩ := env
  unfold mistralSearch mistralSearchBody
  dsimp only
  by_cases hk : keyTruthy key = false
  · rw [if_pos hk]
    exact Or.inr ⟨_, rfl⟩
  · rw [if_neg hk]
    cases cr with
    | error msg => exact Or.inr ⟨_, rfl⟩
    | ok aid =>
      cases cs with
      | error msg => exact Or.inr ⟨_, rfl⟩
      | ok resp =>
        dsimp only
        cases hx : extractSearchText resp with
        | error msg => exact Or.inr ⟨_, rfl⟩
        | ok result =>
          dsimp only
          cases hp : pyResultPreview result with
          | error msg => exact Or.inr ⟨_, rfl⟩
          | ok p =>
            cases d with
            | error m => exact Or.inl ⟨_, rfl⟩
            | ok u => exact Or.inl ⟨_, rfl⟩

/-- Every check_weather return value is an error object or the weather
payload, which has neither a result nor an error key. -/
theorem check_weather_shape (we : WeatherEnv) (city : String) :
    (∃ s, check_weather we city = Json.obj [("error", Json.str s)]) ∨
    ((check_weather we city).hasKey "result" = false ∧
     (check_weather we city).hasKey "error" = false) := by
  unfold check_weather checkWeatherBody
  cases h1 : pyReplaceStrftime we.sunriseHour we.sunriseMinute with
  | error msg => exact Or.inl ⟨_, rfl⟩
  | ok s1 =>
    cases h2 : pyReplaceStrftime we.sunsetHour we.sunsetMinute with
    | error msg => exact Or.inl ⟨_, rfl⟩
    | ok s2 =>
      cases h3 : pyListGet aqDescriptions (we.airQuality - 1) with
      | error msg => exact Or.inl ⟨_, rfl⟩
      | ok a => exact Or.inr ⟨rfl, rfl⟩

/-!
## Claims
-/

/-- C1: For every input argument mapping and every behaviour of the remote
dependency (including the dependency raising an exception), a Tool Function
call (web_search, web_search_mistral, check_weather) returns a value and
never propagates an exception to its caller: any exception raised inside
the body is caught and converted to a mapping of the form
`{"error": "<description>"}`. -/
theorem tool_functions_never_propagate_exceptions
    (me : MistralEnv) (q : String) (we : WeatherEnv) (city : String) :
    (∀ msg t, mistralSearchBody me q = (.error msg, t) →
      web_search me q
        = (Json.obj [("error", Json.str ("Web search failed: " ++ msg))], t)) ∧
    (∀ msg t, mistralSearchBody me q = (.error msg, t) →
      web_search_mistral me q
        = (Json.obj [("error", Json.str ("Web search failed: " ++ msg))], t)) ∧
    (∀ msg, checkWeatherBody we city = .error msg →
      check_weather we city
        = Json.obj [("error", Json.str ("Weather check failed: " ++ msg))]) := by
  refine ⟨?_, ?_, ?_⟩
  · intro msg t hb
    simp only [web_search, mistralSearch, hb]
  · intro msg t hb
    simp only [web_search_mistral, mistralSearch, hb]
  · intro msg hb
    simp only [check_weather, hb]

/-- Witness for C1: a concrete raising dependency is caught in both tool
families. -/
theorem tool_functions_never_propagate_exceptions_witness :
    mistralSearchBody envBoom "q"
      = (.error "boom", [.clientInit, .agentCreate]) ∧
    web_search envBoom "q"
      = (Json.obj [("error", Json.str "Web search failed: boom")],
         [.clientInit, .agentCreate]) ∧
    checkWeatherBody envBadAq "x"
      = .error "IndexError: list index out of range" ∧
    check_weather envBadAq "x"
      = Json.obj [("error",
          Json.str "Weather check failed: IndexError: list index out of range")] :=
  ⟨rfl,
   (tool_functions_never_propagate_exceptions envBoom "q" envBadAq "x").1
     "boom" _ rfl,
   rfl,
   (tool_functions_never_propagate_exceptions envBoom "q" envBadAq "x").2.2
     "IndexError: list index out of range" rfl⟩

/-- C2 counterexample: a successful `check_weather` call returns the
weather payload directly; at a concrete input its top-level mapping
contains neither a "result" key nor an "error" key, falsifying "every Tool
Function return contains a result key or an error key". -/
theorem check_weather_payload_lacks_result_and_error_keys :
    (check_weather envW "paris").hasKey "result" = false ∧
    (check_weather envW "paris").hasKey "error" = false ∧
    (check_weather envW "paris").hasKey "location" = true :=
  ⟨rfl, rfl, rfl⟩

/-- C2 (amended): each search Tool Function returns exactly one of
`{result: <json-value>}` or `{error: string}`; `check_weather` returns either
`{error: string}` or the weather payload itself, whose mapping has neither
a "result" key nor an "error" key; no return value has both keys. -/
theorem tool_result_shapes_amended (me : MistralEnv) (q : String)
    (we : WeatherEnv) (city : String) :
    ((∃ v, (web_search me q).1 = Json.obj [("result", v)]) ∨
     (∃ s, (web_search me q).1 = Json.obj [("error", Json.str s)])) ∧
    ((∃ v, (web_search_mistral me q).1 = Json.obj [("result", v)]) ∨
     (∃ s, (web_search_mistral me q).1 = Json.obj [("error", Json.str s)])) ∧
    ((∃ s, check_weather we city = Json.obj [("error", Json.str s)]) ∨
     ((check_weather we city).hasKey "result" = false ∧
      (check_weather we city).hasKey "error" = false)) :=
  ⟨mistralSearch_shape me q, mistralSearch_shape me q,
   check_weather_shape we city⟩

/-- C3: for every query, if the `MISTRAL_API_KEY` variable is absent or
empty, both search Tool Functions return exactly
`{"error": "Mistral API key not configured"}` and make no remote
interaction at all: the trace of client construction, agent creation,
conversation start and deletion calls is empty. -/
theorem missing_api_key_short_circuits (me : MistralEnv) (q : String)
    (h : keyTruthy me.apiKey = false) :
    web_search me q
      = (Json.obj [("error", Json.str "Mistral API key not configured")],
         []) ∧
    web_search_mistral me q
      = (Json.obj [("error", Json.str "Mistral API key not configured")],
         []) := by
  constructor <;>
    simp only [web_search, web_search_mistral, mistralSearch,
      mistralSearchBody, if_pos h]

/-- Witness for C3: the unset-variable case and the empty-string case both
short-circuit with an empty remote trace. -/
theorem missing_api_key_short_circuits_witness :
    keyTruthy envNoKey.apiKey = false ∧
    keyTruthy envEmptyKey.apiKey = false ∧
    (web_search envNoKey "Latest news about artificial intelligence"
        = (Json.obj [("error", Json.str "Mistral API key not configured")],
           []) ∧
     web_search_mistral envNoKey "Latest news about artificial intelligence"
        = (Json.obj [("error", Json.str "Mistral API key not configured")],
           [])) ∧
    (web_search envEmptyKey "Latest news about artificial intelligence"
        = (Json.obj [("error", Json.str "Mistral API key not configured")],
           []) ∧
     web_search_mistral envEmptyKey "Latest news about artificial intelligence"
        = (Json.obj [("error", Json.str "Mistral API key not configured")],
           [])) :=
  ⟨rfl, rfl,
   missing_api_key_short_circuits envNoKey
     "Latest news about artificial intelligence" rfl,
   missing_api_key_short_circuits envEmptyKey
     "Latest news about artificial intelligence" rfl⟩

/-- C4 counterexample: the agent_gemini entrypoint has no exception
handling; a connection error raised by `session.start` propagates out of
the entrypoint, falsifying "every Entry Point catches exceptions and never
lets them propagate". -/
theorem entrypoint_gemini_propagates_exception :
    AgentGemini.entrypoint ⟨.error PyExc.apiConnectionError, .ok (), .ok ()⟩
      = .error PyExc.apiConnectionError := rfl

/-- C4 (amended): only the agent_v2 entrypoint catches exceptions raised
during session start, room connect and the greeting instruction (its two
handlers cover the documented vendor error kinds and every other
exception), so it always returns normally; the agent_gemini and
voice_executor_v1 entrypoints have no handlers and propagate any exception
from their first awaited step. -/
theorem entrypoint_exception_handling_amended :
    (∀ e : EntryEnv, AgentV2.entrypoint e = .ok ()) ∧
    (∀ (e : EntryEnv) (exc : PyExc), e.start = .error exc →
      AgentGemini.entrypoint e = .error exc) ∧
    (∀ (e : EntryEnv) (exc : PyExc), e.connect = .error exc →
      VoiceExecutorV1.entrypoint e = .error exc) := by
  refine ⟨?_, ?_, ?_⟩
  · intro e
    unfold AgentV2.entrypoint
    cases hall : (do e.start; e.connect; e.generateReply :
        Except PyExc Unit) with
    | ok u => rfl
    | error exc => cases exc <;> rfl
  · intro e exc h
    have hrepr : AgentGemini.entrypoint e
        = Except.bind e.start
            (fun _ => Except.bind e.connect (fun _ => e.generateReply)) := rfl
    rw [hrepr, h]
    rfl
  · intro e exc h
    have hrepr : VoiceExecutorV1.entrypoint e
        = Except.bind e.connect (fun _ => e.start) := rfl
    rw [hrepr, h]
    rfl

/-- Witness for C4 (amended): concrete runs of all three entrypoints. -/
theorem entrypoint_exception_handling_amended_witness :
    AgentV2.entrypoint ⟨.error (PyExc.otherExc "boom"), .ok (), .ok ()⟩
      = .ok () ∧
    AgentGemini.entrypoint ⟨.error PyExc.jsonDecodeError, .ok (), .ok ()⟩
      = .error PyExc.jsonDecodeError ∧
    VoiceExecutorV1.entrypoint ⟨.ok (), .error (PyExc.otherExc "net"), .ok ()⟩
      = .error (PyExc.otherExc "net") :=
  ⟨entrypoint_exception_handling_amended.1 _,
   entrypoint_exception_handling_amended.2.1 _ _ rfl,
   entrypoint_exception_handling_amended.2.2 _ _ rfl⟩

/-- C5: for every city string and every outcome of the random draws, a
successful `check_weather` call conforms to the fixed schema:
`location.city` is the title-cased input city, the temperature unit is
`°C`, the current temperature is numeric, humidity lies in `[20, 100]` and
pressure lies in `[980, 1040]`. -/
theorem check_weather_schema_conformance (e : WeatherEnv) (city : String)
    (h : DrawsValid e) :
    ∃ hum prs tmp : ℚ,
      (check_weather e city).getPath? ["location", "city"]
          = some (Json.str (pyTitle city)) ∧
      (check_weather e city).getPath? ["current", "temperature", "unit"]
          = some (Json.str "°C") ∧
      (check_weather e city).getPath? ["current", "temperature", "current"]
          = some (Json.num tmp) ∧
      (check_weather e city).getPath? ["current", "atmospheric", "humidity"]
          = some (Json.num hum) ∧
      20 ≤ hum ∧ hum ≤ 100 ∧
      (check_weather e city).getPath? ["current", "atmospheric", "pressure"]
          = some (Json.num prs) ∧
      980 ≤ prs ∧ prs ≤ 1040 := by
  obtain ⟨k, hk, hcw⟩ := check_weather_ok e city h
  refine ⟨(e.humidity : ℚ), (e.pressure : ℚ), temperatureVal e, ?_⟩
  simp only [hcw]
  refine ⟨rfl, rfl, rfl, rfl, ?_, ?_, rfl, ?_, ?_⟩
  · exact_mod_cast h.humidity_ge
  · exact_mod_cast h.humidity_le
  · exact_mod_cast h.pressure_ge
  · exact_mod_cast h.pressure_le

/-- Witness for C5: the schema facts at a concrete July environment and
the city "paris". -/
theorem check_weather_schema_conformance_witness :
    ∃ hum prs tmp : ℚ,
      (check_weather envW "paris").getPath? ["location", "city"]
          = some (Json.str (pyTitle "paris")) ∧
      (check_weather envW "paris").getPath? ["current", "temperature", "unit"]
          = some (Json.str "°C") ∧
      (check_weather envW "paris").getPath? ["current", "temperature", "current"]
          = some (Json.num tmp) ∧
      (check_weather envW "paris").getPath? ["current", "atmospheric", "humidity"]
          = some (Json.num hum) ∧
      20 ≤ hum ∧ hum ≤ 100 ∧
      (check_weather envW "paris").getPath? ["current", "atmospheric", "pressure"]
          = some (Json.num prs) ∧
      980 ≤ prs ∧ prs ≤ 1040 :=
  check_weather_schema_conformance envW "paris" envW_drawsValid

/-- C6: in each of the three configurations, the greeting instruction is
issued exactly once on the success path, by exactly one of the two
components: the persona on-enter hook in voice_executor_v1, the
entrypoint after start in agent_v2 and agent_gemini. -/
theorem greeting_issued_exactly_once :
    VoiceExecutorV1.greetingTrace = [GreetSource.persona] ∧
    AgentV2.greetingTrace = [GreetSource.entryPoint] ∧
    AgentGemini.greetingTrace = [GreetSource.entryPoint] :=
  ⟨rfl, rfl, rfl⟩

/-- C7: failure of the post-search cleanup never changes the returned
ToolResult: whatever the delete outcome, both search tools return the same
value; and on the success path a failing delete only appends the logged
cleanup warning to the trace. -/
theorem cleanup_failure_does_not_change_result (env : MistralEnv)
    (q : String) (d d2 : Except String Unit) :
    (web_search { env with delete := d } q).1
      = (web_search { env with delete := d2 } q).1 ∧
    (web_search_mistral { env with delete := d } q).1
      = (web_search_mistral { env with delete := d2 } q).1 ∧
    (∀ s msg t, mistralSearchBody { env with delete := .error msg } q
        = (.ok (Json.obj [("result", Json.str s)]), t) →
      RemoteEv.cleanupWarning ∈ t) := by
  refine ⟨?_, ?_, ?_⟩
  · exact (mistralSearch_fst { env with delete := d } q).trans
      (mistralSearch_fst { env with delete := d2 } q).symm
  · exact (mistralSearch_fst { env with delete := d } q).trans
      (mistralSearch_fst { env with delete := d2 } q).symm
  · intro s msg t hb
    obtain ⟨key, cr, cs, d0⟩ := env
    unfold mistralSearchBody at hb
    dsimp only at hb
    by_cases hk : keyTruthy key = false
    · rw [if_pos hk] at hb
      simp at hb
    · rw [if_neg hk] at hb
      cases cr with
      | error m => simp at hb
      | ok aid =>
        cases cs with
        | error m => simp at hb
        | ok resp =>
          dsimp only at hb
          cases hx : extractSearchText resp with
          | error m =>
            rw [hx] at hb
            simp at hb
          | ok result =>
            rw [hx] at hb
            dsimp only at hb
            cases hp : pyResultPreview result with
            | error m =>
              rw [hp] at hb
              simp at hb
            | ok p =>
              rw [hp] at hb
              have ht := congrArg Prod.snd hb
              simp only at ht
              rw [← ht]
              simp

/-- Witness for C7: with every remote stage succeeding, a failing delete
yields the same result as a succeeding one, and the cleanup failure shows
up only as a logged warning in the trace. -/
theorem cleanup_failure_does_not_change_result_witness :
    (web_search { envOkAll with delete := Except.error "cleanup down" } "q").1
      = (web_search { envOkAll with delete := Except.ok () } "q").1 ∧
    RemoteEv.cleanupWarning ∈
      [RemoteEv.clientInit, RemoteEv.agentCreate, RemoteEv.convStart,
       RemoteEv.agentDelete, RemoteEv.cleanupWarning] :=
  ⟨(cleanup_failure_does_not_change_result envOkAll "q"
      (Except.error "cleanup down") (Except.ok ())).1,
   (cleanup_failure_does_not_change_result envOkAll "q"
      (Except.ok ()) (Except.ok ())).2.2 "answer" "cleanup down" _ rfl⟩

/-- C8: for every sequence of ToolCalls of one model turn, the sequential
dispatch returns one ToolResult per call, in the order the calls were
issued (the result at position i is the executed call at position i). -/
theorem tool_results_preserve_call_order (execTool : ToolCall → ToolResult)
    (calls : List ToolCall) :
    (dispatchToolCalls execTool calls).length = calls.length ∧
    ∀ (i : ℕ) (h1 : i < calls.length)
      (h2 : i < (dispatchToolCalls execTool calls).length),
      (dispatchToolCalls execTool calls).get ⟨i, h2⟩
        = execTool (calls.get ⟨i, h1⟩) := by
  refine ⟨List.length_map _ _, ?_⟩
  intro i h1 h2
  simp [dispatchToolCalls, List.get_eq_getElem, List.getElem_map]

/-- Witness for C8: a concrete two-call turn dispatched in order. -/
theorem tool_results_preserve_call_order_witness :
    (dispatchToolCalls wExec wCalls).length = wCalls.length ∧
    (dispatchToolCalls wExec wCalls).get ⟨1, by decide⟩
      = wExec (wCalls.get ⟨1, by decide⟩) :=
  ⟨(tool_results_preserve_call_order wExec wCalls).1,
   (tool_results_preserve_call_order wExec wCalls).2 1 (by decide) (by decide)⟩

/-- C9: on every successful check_weather return, the air-quality index is
k+1 for some position k of the five-element description list, and the
description is exactly the element at that position: the indexing at
`air_quality - 1` never goes out of bounds. -/
theorem air_quality_fields_consistent (e : WeatherEnv) (city : String)
    (h : DrawsValid e) :
    ∃ k : Fin 5,
      (check_weather e city).getPath?
          ["current", "indices", "air_quality_index"]
        = some (Json.num (((k : ℕ) : ℚ) + 1)) ∧
      (check_weather e city).getPath?
          ["current", "indices", "air_quality_description"]
        = some (Json.str (aqDescriptions.get k)) := by
  obtain ⟨k, hk, hcw⟩ := check_weather_ok e city h
  have hq : (e.airQuality : ℚ) = ((k : ℕ) : ℚ) + 1 := by
    have h2 : e.airQuality = ((k : ℕ) : ℤ) + 1 := by omega
    rw [h2]
    push_cast
    ring
  refine ⟨k, ?_, ?_⟩
  · have hpath : (weatherPayload e city (aqDescriptions.get k)
        (fmtHM e.sunriseHour e.sunriseMinute)
        (fmtHM e.sunsetHour e.sunsetMinute)).getPath?
          ["current", "indices", "air_quality_index"]
        = some (Json.num ((e.airQuality : ℚ))) := rfl
    rw [hcw, hpath, hq]
  · rw [hcw]
    rfl

/-- Witness for C9: the air-quality consistency at a concrete
environment. -/
theorem air_quality_fields_consistent_witness :
    ∃ k : Fin 5,
      (check_weather envW "paris").getPath?
          ["current", "indices", "air_quality_index"]
        = some (Json.num (((k : ℕ) : ℚ) + 1)) ∧
      (check_weather envW "paris").getPath?
          ["current", "indices", "air_quality_description"]
        = some (Json.str (aqDescriptions.get k)) :=
  air_quality_fields_consistent envW "paris" envW_drawsValid

/-- C10: on every successful check_weather return, the wind gust is at
least the wind speed; when the wind speed is at most 5 the gust equals the
speed exactly. -/
theorem wind_gust_ge_speed (e : WeatherEnv) (city : String)
    (h : DrawsValid e) :
    ∃ spd gst : ℚ,
      (check_weather e city).getPath? ["current", "wind", "speed"]
          = some (Json.num spd) ∧
      (check_weather e city).getPath? ["current", "wind", "gust"]
          = some (Json.num gst) ∧
      spd ≤ gst ∧ (spd ≤ 5 → gst = spd) := by
  obtain ⟨k, hk, hcw⟩ := check_weather_ok e city h
  refine ⟨windSpeedVal e, windGustVal e, ?_, ?_, ?_, ?_⟩
  · rw [hcw]
    rfl
  · rw [hcw]
    rfl
  · unfold windGustVal
    by_cases h5 : windSpeedVal e > 5
    · rw [if_pos h5]
      have h1 : pyRound 1 (windSpeedVal e) = windSpeedVal e :=
        pyRound_idem 1 e.windSpeedDraw
      have h2 : pyRound 1 (windSpeedVal e)
          ≤ pyRound 1 (windSpeedVal e + e.windGustDraw) :=
        pyRound_mono 1 (by linarith [h.windGust_ge])
      linarith
    · rw [if_neg h5]
  · intro hle
    unfold windGustVal
    rw [if_neg (not_lt.2 hle)]

/-- Witness for C10: the wind invariant at a concrete environment. -/
theorem wind_gust_ge_speed_witness :
    ∃ spd gst : ℚ,
      (check_weather envW "paris").getPath? ["current", "wind", "speed"]
          = some (Json.num spd) ∧
      (check_weather envW "paris").getPath? ["current", "wind", "gust"]
          = some (Json.num gst) ∧
      spd ≤ gst ∧ (spd ≤ 5 → gst = spd) :=
  wind_gust_ge_speed envW "paris" envW_drawsValid
